import Mathlib

/-
Shallow embedding of the a2docstore web application (src/webserver.py).

The application is a small document catalog: a single SQLAlchemy table
(`DocModel`) of document metadata plus a filesystem store holding one
uploaded file per document id, fronted by Tornado request handlers.

Modelling conventions, chosen to mirror the Python source:
- Strings are `List Char`.  Calendar dates are encoded as the natural
  number y * 10000 + m * 100 + d; lexicographic order on (y, m, d)
  agrees with `Nat` order under this encoding since m < 100 and d < 100.
- The database (the `docs` table) is a `List DocModel` in insertion
  order; the file store is a `List StoredFile` (directory-per-id, one
  file per directory, as the application lays it out).
- Each handler is a function from its request data and the application
  state to a `HandlerResult`: the post state, the list of response
  effects it performed in order (status, writes, headers, cookies,
  filesystem operations), and `some e` when an uncaught Python
  exception `e` escapes the handler (Tornado then produces a 500
  server error response).  Effects recorded before the exception stay
  in the list, matching the order in which the handler executed them.
- `get_argument(name)` with no default raises Tornado
  MissingArgumentError, which Tornado renders as an HTTP 400 client
  error; `get_argument(name, default=None)` yields `none` when the
  argument is absent.  Empty strings are falsy in Python, which the
  handlers rely on; the model keeps these as explicit `= []` tests.
- Cookie values pass through `urllib.quote` in the source; the model
  records the unencoded message in the `setCookie` effect, since no
  verified property depends on percent-encoding.
- The Authorization header is base64-decoded by the source
  (`base64.decodestring(auth_header[6:])`); the model receives the
  already decoded credential string, since decoding is a bijection
  from valid encodings and every property of interest is about the
  decoded string.
- SQLite assigns a fresh `INTEGER PRIMARY KEY` as (max existing id) + 1,
  which `newId` mirrors.  SQL `LIKE` on SQLite compares ASCII letters
  case-insensitively and treats `%` and `_` in the pattern as
  wildcards, which `likeMatch` mirrors.
-/

namespace A2DocStore

/-- Strings of the embedded program. -/
abbrev Str := List Char

/-! ### Character and string helpers -/

/-- Fold an ASCII upper-case letter code to lower case (SQLite `LIKE`
performs exactly this ASCII folding when comparing characters). -/
def lowerNat (n : Nat) : Nat :=
  if 65 ≤ n ∧ n ≤ 90 then n + 32 else n

/-- ASCII-case-insensitive character equality, as used by SQLite `LIKE`. -/
def charEqCI (c d : Char) : Bool :=
  lowerNat c.toNat == lowerNat d.toNat

/-- `q` contains neither of the SQL `LIKE` wildcard characters. -/
def wildcardFree (q : Str) : Bool :=
  q.all fun c => !(c == '%' || c == '_')

/-- Split a string at the first occurrence of `sep`; `none` when `sep`
does not occur. -/
def splitFirst (sep : Char) : Str → Option (Str × Str)
  | [] => none
  | c :: rest =>
      if c = sep then some ([], rest)
      else
        match splitFirst sep rest with
        | none => none
        | some (a, b) => some (c :: a, b)

/-- Python `s.split(sep, n)`: split on `sep` at most `n` times, so the
result has between 1 and `n + 1` parts. -/
def pySplitLimit : Nat → Char → Str → List Str
  | 0, _, s => [s]
  | n + 1, sep, s =>
      match splitFirst sep s with
      | none => [s]
      | some (a, b) => a :: pySplitLimit n sep b

/-- The password portion of decoded HTTP Basic credentials: everything
after the first colon (RFC 7617). -/
def basicPassword (s : Str) : Option Str :=
  match splitFirst ':' s with
  | none => none
  | some (_, rest) => some rest

/-- Value of a decimal digit character. -/
def digitVal (c : Char) : Option Nat :=
  if '0' ≤ c ∧ c ≤ '9' then some (c.toNat - 48) else none

/-- Parse a nonempty all-digit string as a natural number. -/
def natOfDigits (s : Str) : Option Nat :=
  match s with
  | [] => none
  | _ =>
      s.foldl
        (fun acc c =>
          match acc, digitVal c with
          | some n, some d => some (n * 10 + d)
          | _, _ => none)
        (some 0)

/-- Python `s.split(sep)` with no limit: the list of separated
segments (never empty; adjacent separators yield empty segments). -/
def splitChar (sep : Char) : Str → List Str
  | [] => [[]]
  | c :: rest =>
      match splitChar sep rest with
      | [] => [[]]
      | seg :: segs => if c = sep then [] :: seg :: segs else (c :: seg) :: segs

/-- Split a string on every `/`. -/
def splitOnSlash (s : Str) : List Str :=
  splitChar '/' s

/-- `datetime.strptime(s, '%m/%d/%Y').date()`: parse a month/day/year
date.  Dates are encoded as y * 10000 + m * 100 + d.  (`strptime`
raises ValueError on malformed input, modelled as `none`; the model
checks the numeric ranges coarsely.) -/
def strptimeMDY (s : Str) : Option Nat :=
  match splitOnSlash s with
  | [ms, ds, ys] =>
      match natOfDigits ms, natOfDigits ds, natOfDigits ys with
      | some m, some d, some y =>
          if 1 ≤ m ∧ m ≤ 12 ∧ 1 ≤ d ∧ d ≤ 31 then some (y * 10000 + m * 100 + d)
          else none
      | _, _, _ => none
  | _ => none

/-! ### Data model -/

/-- One row of the `docs` table (class `DocModel` in the source). -/
structure DocModel where
  id : Nat
  doc_title : Str
  doc_description : Str
  source_org : Str
  tracking_number : Option Str
  date_requested : Option Nat
  date_received : Option Nat
  uploader_name : Str
  uploader_email : Str
  filename : Str
  date_uploaded : Nat
deriving DecidableEq

/-- One file on disk: `stored_docs_path/<doc_id>/<name>` with contents
`content`. -/
structure StoredFile where
  doc_id : Nat
  name : Str
  content : Str
deriving DecidableEq

/-- The persistent state: the `docs` table plus the file store. -/
structure AppState where
  catalog : List DocModel
  store : List StoredFile
deriving DecidableEq

/-- An observable action a handler performs while building its
response (in execution order). -/
inductive Effect where
  | setStatus (code : Nat)
  | writeBody (s : Str)
  | writeJsonSuccess
  | setHeader (name value : Str)
  | setCookie (name value : Str)
  | setSecureCookie (name value : Str)
  | clearCookie (name : Str)
  | redirectTo (path : Str)
  | fileOpen (docId : Nat) (name : Str)
  | rmtreeDir (docId : Nat)
  | dbDeleteRow (docId : Nat)
deriving DecidableEq

/-- Python exceptions that can escape a handler (Tornado then sends a
500 server error, except for MissingArgumentError which is an
HTTPError(400) client error). -/
inductive PyError where
  | ioError
  | attributeError
  | valueError
  | missingArgument
  | noResultFound
  | fsError
deriving DecidableEq

instance {ε α : Type} [DecidableEq ε] [DecidableEq α] : DecidableEq (Except ε α) :=
  fun x y =>
    match x, y with
    | .ok a, .ok b =>
        if h : a = b then isTrue (by rw [h]) else isFalse (by intro hc; cases hc; exact h rfl)
    | .error a, .error b =>
        if h : a = b then isTrue (by rw [h]) else isFalse (by intro hc; cases hc; exact h rfl)
    | .ok _, .error _ => isFalse (by intro hc; cases hc)
    | .error _, .ok _ => isFalse (by intro hc; cases hc)

/-- Result of running a handler: post state, response effects in
order, and the escaped exception if any. -/
structure HandlerResult where
  state : AppState
  effects : List Effect
  error : Option PyError
deriving DecidableEq

/-! ### Catalog operations -/

/-- `session.query(DocModel).filter(DocModel.id == i).one()`: the row
with the given primary key; `none` models the NoResultFound exception. -/
def getById : List DocModel → Nat → Option DocModel
  | [], _ => none
  | d :: rest, i => if d.id = i then some d else getById rest i

/-- Replace the first row with id `i` (the ORM update of the fetched
row at commit). -/
def updateFirst : List DocModel → Nat → DocModel → List DocModel
  | [], _, _ => []
  | d :: rest, i, nd => if d.id = i then nd :: rest else d :: updateFirst rest i nd

/-- Remove the first row with id `i` (the ORM delete of the fetched
row at commit). -/
def removeFirst : List DocModel → Nat → List DocModel
  | [], _ => []
  | d :: rest, i => if d.id = i then rest else d :: removeFirst rest i

/-- The id SQLite assigns to a freshly inserted row: one more than the
largest existing id. -/
def newId (cat : List DocModel) : Nat :=
  (cat.map fun d => d.id).foldr max 0 + 1

/-! ### Store operations -/

/-- `os.path.exists` on the directory `stored_docs_path/<i>`. -/
def storeHasDir : List StoredFile → Nat → Bool
  | [], _ => false
  | f :: rest, i => f.doc_id == i || storeHasDir rest i

/-- `shutil.rmtree` on the directory of id `i`: every file under it is
removed. -/
def removeDir : List StoredFile → Nat → List StoredFile
  | [], _ => []
  | f :: rest, i => if f.doc_id = i then removeDir rest i else f :: removeDir rest i

/-- `os.path.exists` / `open` on `stored_docs_path/<i>/<n>`: the
contents of the stored file, if present. -/
def storeLookup : List StoredFile → Nat → Str → Option Str
  | [], _, _ => none
  | f :: rest, i, n =>
      if f.doc_id = i ∧ f.name = n then some f.content else storeLookup rest i n

/-- The download loop reads the file in chunks of this many bytes
(`fd.read(1000000)`). -/
def CHUNK : Nat := 1000000

/-- The chunks produced by the download read loop. -/
def readChunks : Str → List Str
  | [] => []
  | c :: rest => ((c :: rest).take CHUNK) :: readChunks ((c :: rest).drop CHUNK)
  termination_by s => s.length
  decreasing_by simp [CHUNK]; omega

/-- Concatenation of everything a list of effects wrote to the
response body. -/
def writesBody : List Effect → Str
  | [] => []
  | .writeBody s :: rest => s ++ writesBody rest
  | .setStatus _ :: rest => writesBody rest
  | .writeJsonSuccess :: rest => writesBody rest
  | .setHeader _ _ :: rest => writesBody rest
  | .setCookie _ _ :: rest => writesBody rest
  | .setSecureCookie _ _ :: rest => writesBody rest
  | .clearCookie _ :: rest => writesBody rest
  | .redirectTo _ :: rest => writesBody rest
  | .fileOpen _ _ :: rest => writesBody rest
  | .rmtreeDir _ :: rest => writesBody rest
  | .dbDeleteRow _ :: rest => writesBody rest

/-! ### SQL LIKE and the search handler -/

/-- Does `f` hold of some suffix of the string (including the string
itself and the empty suffix)?  This is how a `%` in a `LIKE` pattern
consumes an arbitrary run of characters: the rest of the pattern must
match some suffix of the rest of the string. -/
def likeMatchAux (f : Str → Bool) : Str → Bool
  | [] => f []
  | a :: s => f (a :: s) || likeMatchAux f s

/-- SQLite `LIKE`: `%` matches any run of characters, `_` matches one
character, and plain characters compare ASCII-case-insensitively. -/
def likeMatch : Str → Str → Bool
  | [], [] => true
  | [], _ :: _ => false
  | c :: p, s =>
      if c = '%' then likeMatchAux (likeMatch p) s
      else
        match s with
        | [] => false
        | a :: s2 => (c == '_' || charEqCI c a) && likeMatch p s2

/-- The pattern the search handler builds: `'%%%s%%' % query_arg`. -/
def likePattern (q : Str) : Str := '%' :: (q ++ ['%'])

/-- The `or_`-combined filter of `SearchHandler.get`: the LIKE pattern
against title, description, source org and uploader name. -/
def rowMatches (q : Str) (d : DocModel) : Bool :=
  likeMatch (likePattern q) d.doc_title ||
  likeMatch (likePattern q) d.doc_description ||
  likeMatch (likePattern q) d.source_org ||
  likeMatch (likePattern q) d.uploader_name

/-- `order_by(desc(DocModel.date_uploaded))`: row `a` may come before
row `b` when its upload date is at least as late. -/
def docDateGe (a b : DocModel) : Prop :=
  b.date_uploaded ≤ a.date_uploaded

instance : DecidableRel docDateGe :=
  fun a b => inferInstanceAs (Decidable (b.date_uploaded ≤ a.date_uploaded))

instance : IsTotal DocModel docDateGe :=
  ⟨fun a b => Nat.le_total b.date_uploaded a.date_uploaded⟩

instance : IsTrans DocModel docDateGe :=
  ⟨fun _ _ _ hab hbc => Nat.le_trans hbc hab⟩

/-- What `SearchHandler.get` passes to the template: the total match
count and the current page. -/
structure SearchResult where
  count : Nat
  matching_docs : List DocModel
deriving DecidableEq

/-- `SearchHandler.get`.  `query_arg` is the `query` argument
(`none` when absent; the empty string is falsy in Python and takes the
unfiltered branch); `offset` is the parsed `offset` argument
(0 when absent).  The filtered query is ordered by upload date
descending, `count` is taken before pagination, and the page is
`offset`/limit-20. -/
def searchGet (st : AppState) (query_arg : Option Str) (offset : Nat) : SearchResult :=
  let base :=
    match query_arg with
    | some q => if q = [] then st.catalog else st.catalog.filter (rowMatches q)
    | none => st.catalog
  let ordered := List.insertionSort docDateGe base
  { count := base.length, matching_docs := (ordered.drop offset).take 20 }

/-! ### The substring predicate the specification describes -/

/-- ASCII-case-insensitive prefix test. -/
def startsWithCI : Str → Str → Bool
  | [], _ => true
  | _ :: _, [] => false
  | c :: q, a :: s => charEqCI c a && startsWithCI q s

/-- ASCII-case-insensitive substring test: the specification's "the
term appears in title, description, org, or uploader name
(case-insensitive)". -/
def substringCI (q : Str) : Str → Bool
  | [] => startsWithCI q []
  | a :: s => startsWithCI q (a :: s) || substringCI q s

/-- The specification's search filter: the term is a case-insensitive
substring of one of the four searched fields. -/
def specMatches (q : Str) (d : DocModel) : Bool :=
  substringCI q d.doc_title ||
  substringCI q d.doc_description ||
  substringCI q d.source_org ||
  substringCI q d.uploader_name

/-! ### Download handler -/

/-- `DownloadHandler.get(doc_id, filename)`.  When the file is absent
the code sets a 404 status and writes a plain-text body but does not
return: it still sets the attachment headers and then calls `open` on
the nonexistent path, which raises IOError.  When the file is present
it streams it back in `CHUNK`-sized pieces. -/
def downloadGet (st : AppState) (docId : Nat) (filename : Str) : HandlerResult :=
  match storeLookup st.store docId filename with
  | none =>
      { state := st,
        effects := [.setStatus 404, .writeBody "File not found".toList,
          .setHeader "Content-Type".toList "application/ocet-stream".toList,
          .setHeader "Content-Disposition".toList ("attachment; filename=".toList ++ filename),
          .fileOpen docId filename],
        error := some .ioError }
  | some content =>
      { state := st,
        effects := [.setHeader "Content-Type".toList "application/ocet-stream".toList,
          .setHeader "Content-Disposition".toList ("attachment; filename=".toList ++ filename),
          .fileOpen docId filename] ++ (readChunks content).map Effect.writeBody,
        error := none }

/-! ### Add handler -/

/-- The form data of a `POST /add` request: each field is `some value`
when the argument was submitted (possibly as the empty string) and
`none` when it was omitted; `file` is the first element of
`request.files['file']` as a (filename, body) pair. -/
structure AddForm where
  doc_title : Option Str
  doc_description : Option Str
  source_org : Option Str
  tracking_number : Option Str
  date_requested : Option Str
  date_received : Option Str
  uploader_name : Option Str
  uploader_email : Option Str
  file : Option (Str × Str)
deriving DecidableEq

/-- An optional date argument, as `AddHandler.post` treats it: absent
or empty means no date, otherwise it must `strptime` in `%m/%d/%Y`
format (ValueError escapes the handler otherwise). -/
def parseOptDate (v : Option Str) : Except PyError (Option Nat) :=
  match v with
  | none => .ok none
  | some s =>
      if s = [] then .ok none
      else
        match strptimeMDY s with
        | some d => .ok (some d)
        | none => .error .valueError

/-- `AddHandler.post`.  In source order: the three required arguments
(`get_argument` with no default raises MissingArgumentError, an HTTP
400, when one is absent), the file-presence check with its explicit
400, the optional tracking number and dates, the uploader fields
(required arguments whose empty values fall back to the anonymous
placeholders via Python `or`), then the commit that assigns the id and
finally the directory and file writes (`os.mkdir` raises OSError when
the directory already exists, after the row was committed). -/
def addPost (st : AppState) (form : AddForm) (today : Nat) : HandlerResult :=
  match form.doc_title, form.doc_description, form.source_org with
  | some t, some dsc, some org =>
      match form.file with
      | none =>
          { state := st,
            effects := [.setStatus 400, .writeBody "Request missing file upload".toList],
            error := none }
      | some (filename, file_data) =>
          match parseOptDate form.date_requested with
          | .error e => { state := st, effects := [], error := some e }
          | .ok date_requested =>
              match parseOptDate form.date_received with
              | .error e => { state := st, effects := [], error := some e }
              | .ok date_received =>
                  match form.uploader_name, form.uploader_email with
                  | some un, some ue =>
                      let uploader_name := if un = [] then "anonymous".toList else un
                      let uploader_email :=
                        if ue = [] then "anonymous@example.com".toList else ue
                      let document_id := newId st.catalog
                      let new_doc : DocModel :=
                        { id := document_id, doc_title := t, doc_description := dsc,
                          source_org := org, tracking_number := form.tracking_number,
                          date_requested := date_requested, date_received := date_received,
                          uploader_name := uploader_name, uploader_email := uploader_email,
                          filename := filename, date_uploaded := today }
                      let catalog2 := st.catalog ++ [new_doc]
                      if storeHasDir st.store document_id then
                        { state := { catalog := catalog2, store := st.store },
                          effects := [], error := some .fsError }
                      else
                        let new_file : StoredFile :=
                          { doc_id := document_id, name := filename, content := file_data }
                        { state := { catalog := catalog2, store := st.store ++ [new_file] },
                          effects := [.setCookie "notification".toList
                              "Document added; thanks!".toList,
                            .redirectTo "/".toList],
                          error := none }
                  | _, _ => { state := st, effects := [], error := some .missingArgument }
  | _, _, _ => { state := st, effects := [], error := some .missingArgument }

/-! ### Edit handler -/

/-- The form data of a `POST /edit/{id}` request; every one of the
eight fields is fetched with `get_argument` and is therefore a
required argument. -/
structure EditForm where
  doc_title : Option Str
  doc_description : Option Str
  source_org : Option Str
  tracking_number : Option Str
  date_requested : Option Str
  date_received : Option Str
  uploader_name : Option Str
  uploader_email : Option Str
deriving DecidableEq

/-- The eight argument values of an edit after fetching and date
coercion, in source order. -/
structure EditVals where
  doc_title : Str
  doc_description : Str
  source_org : Str
  tracking_number : Str
  date_requested : Option Nat
  date_received : Option Nat
  uploader_name : Str
  uploader_email : Str
deriving DecidableEq

/-- `get_argument(name)` with no default: MissingArgumentError when
the argument is absent. -/
def requireArg (v : Option Str) : Except PyError Str :=
  match v with
  | some s => .ok s
  | none => .error .missingArgument

/-- A required date argument of the edit loop: empty means no date,
otherwise `%m/%d/%Y` or ValueError. -/
def parseDateArg (s : Str) : Except PyError (Option Nat) :=
  if s = [] then .ok none
  else
    match strptimeMDY s with
    | some d => .ok (some d)
    | none => .error .valueError

/-- The argument-fetching loop of `EditHandler.post`, in the order the
source lists the eight properties (each date is coerced right after it
is fetched). -/
def readEditForm (form : EditForm) : Except PyError EditVals := do
  let t ← requireArg form.doc_title
  let dsc ← requireArg form.doc_description
  let org ← requireArg form.source_org
  let tn ← requireArg form.tracking_number
  let dreqS ← requireArg form.date_requested
  let dreq ← parseDateArg dreqS
  let drecS ← requireArg form.date_received
  let drec ← parseDateArg drecS
  let un ← requireArg form.uploader_name
  let ue ← requireArg form.uploader_email
  return { doc_title := t, doc_description := dsc, source_org := org,
           tracking_number := tn, date_requested := dreq, date_received := drec,
           uploader_name := un, uploader_email := ue }

/-- The `setattr` loop applied to the fetched row: exactly the eight
listed metadata fields are overwritten; `id`, `filename` and
`date_uploaded` are not assigned.  (The loop mutates the in-memory
object field by field; the database row changes only at the single
commit that follows, so an error during the loop leaves the table
unchanged.) -/
def applyEdit (doc : DocModel) (v : EditVals) : DocModel :=
  { doc with
    doc_title := v.doc_title
    doc_description := v.doc_description
    source_org := v.source_org
    tracking_number := some v.tracking_number
    date_requested := v.date_requested
    date_received := v.date_received
    uploader_name := v.uploader_name
    uploader_email := v.uploader_email }

/-- `EditHandler.post(doc_id)`.  Unlike `EditHandler.get` and
`DeleteHandler.post`, this handler never reads the `authorized`
cookie: the request context (`_authorized`) is available but unused,
exactly as in the source.  The row is fetched (`one()`, NoResultFound
when absent), the eight arguments are fetched and coerced, and the
update is committed. -/
def editPost (st : AppState) (_authorized : Bool) (doc_id : Nat) (form : EditForm) :
    HandlerResult :=
  match getById st.catalog doc_id with
  | none => { state := st, effects := [], error := some .noResultFound }
  | some doc =>
      match readEditForm form with
      | .error e => { state := st, effects := [], error := some e }
      | .ok v =>
          { state := { st with catalog := updateFirst st.catalog doc_id (applyEdit doc v) },
            effects := [.setCookie "notification".toList "Document updated; thanks!".toList,
              .redirectTo "/".toList],
            error := none }

/-! ### Delete handler -/

/-- `DeleteHandler.post`.  `authorized` is whether the signed
`authorized` cookie is present and valid; `doc_id` is the form
argument (`none` when absent or empty, both falsy in Python).  The
unauthorized branch answers 400 with a plain-text body.  The
missing-`doc_id` branch calls `self.set_stataus(401)` - a method that
does not exist - so an AttributeError escapes before anything is
written.  Otherwise `shutil.rmtree` removes the directory (OSError
when it is absent), then the row is fetched and deleted, and the
notification (with the stray trailing quote of the source format
string) and JSON body are written. -/
def deletePost (st : AppState) (authorized : Bool) (doc_id : Option Nat) : HandlerResult :=
  if authorized then
    match doc_id with
    | none => { state := st, effects := [], error := some .attributeError }
    | some i =>
        if storeHasDir st.store i then
          match getById st.catalog i with
          | none =>
              { state := { st with store := removeDir st.store i },
                effects := [.rmtreeDir i], error := some .noResultFound }
          | some doc =>
              { state := { catalog := removeFirst st.catalog i, store := removeDir st.store i },
                effects := [.rmtreeDir i, .dbDeleteRow i,
                  .setCookie "notification".toList
                    ("Deleted document: ".toList ++ doc.doc_title ++ "\"".toList),
                  .writeJsonSuccess],
                error := none }
        else { state := st, effects := [], error := some .fsError }
  else
    { state := st, effects := [.setStatus 400, .writeBody "Not authorized".toList],
      error := none }

/-! ### Auth handler -/

/-- A `GET /auth/` request: whether the `log_out` argument is present
and truthy, and the base64-decoded HTTP Basic credential string
(`none` when the Authorization header is absent). -/
structure AuthRequest where
  log_out : Bool
  creds : Option Str
deriving DecidableEq

/-- What `AuthHandler.get` produced: its response effects and the
escaped exception, if any.  (The handler touches no catalog or store
state.) -/
structure AuthResult where
  effects : List Effect
  error : Option PyError
deriving DecidableEq

/-- `AuthHandler.get`.  Log-out requests clear the marker cookie and
redirect.  Without an Authorization header the handler challenges with
401.  Otherwise the decoded credentials are split with
`split(':', 2)` - up to three parts - and unpacked into exactly two
variables, so any split that does not yield exactly two parts raises
ValueError.  A matching password sets the signed marker cookie; a
mismatch challenges with 401. -/
def authGet (password : Str) (req : AuthRequest) : AuthResult :=
  if req.log_out then
    { effects := [.clearCookie "authorized".toList,
        .setCookie "notification".toList "You have signed out".toList,
        .redirectTo "/".toList],
      error := none }
  else
    match req.creds with
    | none =>
        { effects := [.setHeader "WWW-Authenticate".toList "Basic realm=/auth/".toList,
            .setStatus 401],
          error := none }
    | some decoded =>
        match pySplitLimit 2 ':' decoded with
        | [_username, pw] =>
            if pw = password then
              { effects := [.setSecureCookie "authorized".toList "true".toList,
                  .setCookie "notification".toList "You have signed in succesfully!".toList,
                  .redirectTo "/".toList],
                error := none }
            else
              { effects := [.setHeader "WWW-Authenticate".toList "Basic realm=/auth/".toList,
                  .setStatus 401],
                error := none }
        | _ => { effects := [], error := some .valueError }

/-! ### Helper lemmas -/

/-- `substringCI` is the suffix-search combinator applied to the
case-insensitive prefix test. -/
theorem substringCI_eq_aux (q : Str) : ∀ s, substringCI q s = likeMatchAux (startsWithCI q) s
  | [] => rfl
  | a :: s => by rw [substringCI, likeMatchAux, substringCI_eq_aux q s]

/-- The suffix-search combinator only depends on the values of its
function argument. -/
theorem likeMatchAux_congr {f g : Str → Bool} (h : ∀ t, f t = g t) :
    ∀ s, likeMatchAux f s = likeMatchAux g s
  | [] => by rw [likeMatchAux, likeMatchAux, h]
  | a :: s => by rw [likeMatchAux, likeMatchAux, h, likeMatchAux_congr h s]

/-- A leading `%` in the pattern searches the rest of the pattern
over every suffix of the string. -/
theorem likeMatch_percent_cons (rest : Str) (s : Str) :
    likeMatch ('%' :: rest) s = likeMatchAux (likeMatch rest) s := by
  cases s with
  | nil => simp [likeMatch]
  | cons a s2 => simp [likeMatch]

/-- A trailing `%` after the empty pattern matches every string. -/
theorem likeMatchAux_nil_pattern : ∀ s : Str, likeMatchAux (likeMatch []) s = true
  | [] => rfl
  | a :: s => by
      rw [likeMatchAux, likeMatchAux_nil_pattern s]
      simp [likeMatch]

/-- For a wildcard-free term `q`, the pattern `q%` matches a string
exactly when `q` is a case-insensitive prefix of it. -/
theorem likeMatch_append_percent {q : Str} (hq : wildcardFree q = true) :
    ∀ t, likeMatch (q ++ ['%']) t = startsWithCI q t := by
  induction q with
  | nil =>
      intro t
      rw [List.nil_append, likeMatch_percent_cons, likeMatchAux_nil_pattern, startsWithCI]
  | cons c q ih =>
      simp only [wildcardFree, List.all_cons, Bool.and_eq_true, Bool.not_eq_true',
        Bool.or_eq_false_iff, beq_eq_false_iff_ne, ne_eq] at hq
      obtain ⟨⟨hc1, hc2⟩, hq'⟩ := hq
      have ihq : wildcardFree q = true := hq'
      intro t
      cases t with
      | nil =>
          rw [List.cons_append, likeMatch, if_neg hc1]
          rfl
      | cons a t2 =>
          rw [List.cons_append, likeMatch, if_neg hc1]
          have hcu : (c == '_') = false := beq_eq_false_iff_ne.mpr hc2
          rw [startsWithCI]
          simp only [hcu, Bool.false_or]
          rw [ih ihq t2]

/-- For a wildcard-free search term, the `LIKE` pattern the search
handler builds is exactly the case-insensitive substring test. -/
theorem likeMatch_likePattern {q : Str} (hq : wildcardFree q = true) (s : Str) :
    likeMatch (likePattern q) s = substringCI q s := by
  rw [likePattern, likeMatch_percent_cons,
    likeMatchAux_congr (likeMatch_append_percent hq), ← substringCI_eq_aux]

/-- For a wildcard-free search term, the search filter of the code
agrees with the substring filter of the specification. -/
theorem rowMatches_eq_specMatches {q : Str} (hq : wildcardFree q = true) (d : DocModel) :
    rowMatches q d = specMatches q d := by
  rw [rowMatches, specMatches, likeMatch_likePattern hq, likeMatch_likePattern hq,
    likeMatch_likePattern hq, likeMatch_likePattern hq]

/-- Every element of a list of naturals is bounded by its
`foldr max 0`. -/
theorem le_foldr_max (l : List Nat) : ∀ x ∈ l, x ≤ l.foldr max 0 := by
  induction l with
  | nil => simp
  | cons a l ih =>
      intro x hx
      rcases List.mem_cons.mp hx with h | h
      · subst h
        exact Nat.le_max_left _ _
      · exact Nat.le_trans (ih x h) (Nat.le_max_right _ _)

/-- The id SQLite assigns to a new row differs from every existing id. -/
theorem newId_fresh (cat : List DocModel) : ∀ d ∈ cat, d.id ≠ newId cat := by
  intro d hd
  have hle : d.id ≤ (cat.map fun d => d.id).foldr max 0 :=
    le_foldr_max _ _ (List.mem_map_of_mem _ hd)
  rw [newId]
  omega

/-- When no directory for id `i` exists, no stored file carries id `i`. -/
theorem storeHasDir_eq_false {s : List StoredFile} {i : Nat}
    (h : storeHasDir s i = false) : ∀ f ∈ s, f.doc_id ≠ i := by
  induction s with
  | nil => simp
  | cons g s ih =>
      rw [storeHasDir, Bool.or_eq_false_iff] at h
      intro f hf
      rcases List.mem_cons.mp hf with h1 | h1
      · subst h1
        exact beq_eq_false_iff_ne.mp h.1
      · exact ih h.2 f h1

/-- Looking up a freshly appended stored file finds it, provided no
earlier entry already sits in the same directory. -/
theorem storeLookup_append_fresh (s : List StoredFile) (f : StoredFile)
    (h : ∀ g ∈ s, g.doc_id ≠ f.doc_id) :
    storeLookup (s ++ [f]) f.doc_id f.name = some f.content := by
  induction s with
  | nil => simp [storeLookup]
  | cons g s ih =>
      have hg : g.doc_id ≠ f.doc_id := h g (List.mem_cons_self g s)
      rw [List.cons_append, storeLookup, if_neg fun hc => hg hc.1]
      exact ih fun g2 hg2 => h g2 (List.mem_cons_of_mem _ hg2)

/-- After `rmtree`, the directory is gone. -/
theorem storeHasDir_removeDir (s : List StoredFile) (i : Nat) :
    storeHasDir (removeDir s i) i = false := by
  induction s with
  | nil => rfl
  | cons f s ih =>
      by_cases hf : f.doc_id = i
      · rw [removeDir, if_pos hf]
        exact ih
      · rw [removeDir, if_neg hf, storeHasDir, ih, beq_eq_false_iff_ne.mpr hf]
        rfl

/-- After `rmtree`, no file under the removed directory can be read. -/
theorem storeLookup_removeDir (s : List StoredFile) (i : Nat) (n : Str) :
    storeLookup (removeDir s i) i n = none := by
  induction s with
  | nil => rfl
  | cons f s ih =>
      by_cases hf : f.doc_id = i
      · rw [removeDir, if_pos hf]
        exact ih
      · rw [removeDir, if_neg hf, storeLookup, if_neg fun hc => hf hc.1]
        exact ih

/-- A catalog that contains no row with id `i` answers `none` to a
fetch by id `i`. -/
theorem getById_eq_none (cat : List DocModel) (i : Nat)
    (h : ∀ d ∈ cat, d.id ≠ i) : getById cat i = none := by
  induction cat with
  | nil => rfl
  | cons d cat ih =>
      rw [getById, if_neg (h d (List.mem_cons_self d cat))]
      exact ih fun d2 hd2 => h d2 (List.mem_cons_of_mem _ hd2)

/-- Deleting the row with id `i` from a catalog with pairwise distinct
ids makes a subsequent fetch by id `i` fail. -/
theorem getById_removeFirst (cat : List DocModel) (i : Nat)
    (huniq : (cat.map fun d => d.id).Nodup) :
    getById (removeFirst cat i) i = none := by
  induction cat with
  | nil => rfl
  | cons d cat ih =>
      rw [List.map_cons, List.nodup_cons] at huniq
      by_cases hd : d.id = i
      · rw [removeFirst, if_pos hd]
        refine getById_eq_none cat i fun e he hei => huniq.1 ?_
        rw [hd, ← hei]
        exact List.mem_map_of_mem _ he
      · rw [removeFirst, if_neg hd, getById, if_neg hd]
        exact ih huniq.2

/-- The chunked read loop reassembles the whole file. -/
theorem readChunks_flatten (s : Str) : (readChunks s).flatten = s := by
  induction s using readChunks.induct with
  | case1 => simp [readChunks]
  | case2 c rest ih => rw [readChunks, List.flatten_cons, ih, List.take_append_drop]

/-- Writing a list of chunks writes their concatenation. -/
theorem writesBody_map_writeBody (cs : List Str) :
    writesBody (cs.map Effect.writeBody) = cs.flatten := by
  induction cs with
  | nil => rfl
  | cons c cs ih => rw [List.map_cons, writesBody, ih, List.flatten_cons]

/-- A download of a present stored file succeeds and streams exactly
the stored bytes. -/
theorem downloadGet_found (st : AppState) (i : Nat) (n content : Str)
    (h : storeLookup st.store i n = some content) :
    (downloadGet st i n).error = none ∧
    writesBody (downloadGet st i n).effects = content := by
  constructor
  · simp [downloadGet, h]
  · simp [downloadGet, h, writesBody, writesBody_map_writeBody, readChunks_flatten]

/-! ### Concrete example data used by the closed theorems -/

/-- A sample catalog row. -/
def exDoc : DocModel :=
  { id := 1
    doc_title := "Report A".toList
    doc_description := "Quarterly numbers".toList
    source_org := "Agency X".toList
    tracking_number := none
    date_requested := none
    date_received := none
    uploader_name := "Jo".toList
    uploader_email := "jo@example.com".toList
    filename := "a.pdf".toList
    date_uploaded := 20240102 }

/-- The stored file of `exDoc`. -/
def exFile : StoredFile :=
  { doc_id := 1, name := "a.pdf".toList, content := "PDFDATA".toList }

/-- A one-document application state. -/
def exState : AppState :=
  { catalog := [exDoc], store := [exFile] }

/-- A complete edit form (every one of the eight arguments present). -/
def exEditForm : EditForm :=
  { doc_title := some "Report B".toList
    doc_description := some "Revised numbers".toList
    source_org := some "Agency Y".toList
    tracking_number := some "TN-7".toList
    date_requested := some "1/2/2024".toList
    date_received := some []
    uploader_name := some "Jo".toList
    uploader_email := some "jo@example.com".toList }

/-- An add form with every argument present (blank uploader fields)
and a file upload. -/
def exAddForm : AddForm :=
  { doc_title := some "Report B".toList
    doc_description := some "Fresh numbers".toList
    source_org := some "Agency Y".toList
    tracking_number := none
    date_requested := some "1/2/2024".toList
    date_received := none
    uploader_name := some []
    uploader_email := some []
    file := some ("b.pdf".toList, "PDF2".toList) }

/-- An add form with every argument present, a given uploader name
and a blank uploader email. -/
def exAddFormMixed : AddForm :=
  { doc_title := some "Report E".toList
    doc_description := some "Totals".toList
    source_org := some "Agency V".toList
    tracking_number := none
    date_requested := none
    date_received := none
    uploader_name := some "Sam".toList
    uploader_email := some []
    file := some ("e.pdf".toList, "PDF5".toList) }

/-- An add form whose `uploader_name` parameter is omitted entirely,
with the three spec-listed required fields and the file present. -/
def exAddFormNoName : AddForm :=
  { doc_title := some "Report C".toList
    doc_description := some "Numbers".toList
    source_org := some "Agency Z".toList
    tracking_number := none
    date_requested := none
    date_received := none
    uploader_name := none
    uploader_email := some "c@example.com".toList
    file := some ("c.pdf".toList, "PDF3".toList) }

/-- An add form whose `uploader_email` parameter is omitted entirely,
with the three spec-listed required fields and the file present. -/
def exAddFormNoEmail : AddForm :=
  { doc_title := some "Report D".toList
    doc_description := some "Figures".toList
    source_org := some "Agency W".toList
    tracking_number := none
    date_requested := none
    date_received := none
    uploader_name := some "Sam".toList
    uploader_email := none
    file := some ("d.pdf".toList, "PDF4".toList) }

/-! ### Claims -/

/-- Claim C1 (code bug in the edit path): the claim says every
`POST /edit/{id}` request without a valid `authorized` marker cookie
is rejected with an unauthorized status and changes nothing, and the
specification lists `/edit` as auth-gated, but `EditHandler.post`
never reads the cookie.  At the concrete failing input - an
unauthorized but otherwise complete edit of document 1 - the handler
raises no error, commits the change (the catalog differs afterwards),
responds with the success notification and redirect, and behaves
identically to the authorized request.  (`EditHandler.get` and
`DeleteHandler.post` do check the cookie, which makes the missing
check in the mutating POST handler a slip against the specified
intent.) -/
theorem c1_edit_post_ignores_auth :
    (editPost exState false 1 exEditForm).error = none ∧
    (editPost exState false 1 exEditForm).state.catalog ≠ exState.catalog ∧
    (editPost exState false 1 exEditForm).effects =
      [.setCookie "notification".toList "Document updated; thanks!".toList,
        .redirectTo "/".toList] ∧
    editPost exState false 1 exEditForm = editPost exState true 1 exEditForm := by
  decide

/-- Claim C2 (confirmed): when the stored file of a
`GET /file/{id}/{filename}` request does not exist, the handler sets
a 404 status and writes a plain-text body but does not stop: it still
sets the attachment headers and then attempts to open and stream the
nonexistent file, so an IOError escapes.  The effect list records the
execution order. -/
theorem c2_download_404_then_streams (st : AppState) (docId : Nat) (filename : Str)
    (h : storeLookup st.store docId filename = none) :
    downloadGet st docId filename =
      { state := st
        effects := [.setStatus 404, .writeBody "File not found".toList,
          .setHeader "Content-Type".toList "application/ocet-stream".toList,
          .setHeader "Content-Disposition".toList ("attachment; filename=".toList ++ filename),
          .fileOpen docId filename]
        error := some .ioError } := by
  simp [downloadGet, h]

/-- Witness for C2 at a concrete empty store. -/
theorem c2_witness :
    storeLookup (AppState.mk [] []).store 1 "a.pdf".toList = none ∧
    downloadGet (AppState.mk [] []) 1 "a.pdf".toList =
      { state := AppState.mk [] []
        effects := [.setStatus 404, .writeBody "File not found".toList,
          .setHeader "Content-Type".toList "application/ocet-stream".toList,
          .setHeader "Content-Disposition".toList
            ("attachment; filename=".toList ++ "a.pdf".toList),
          .fileOpen 1 "a.pdf".toList]
        error := some .ioError } :=
  ⟨by decide, c2_download_404_then_streams (AppState.mk [] []) 1 "a.pdf".toList (by decide)⟩

/-- Claim C3 (code bug): the claim says an authorized `POST /delete`
without a `doc_id` field fails with a 4xx client error and a
plain-text body.  The code calls `self.set_stataus(401)` - a
misspelling of `set_status` - so an AttributeError escapes before
anything is written: Tornado turns this into a 500 server error with
no plain-text message.  The state is unchanged, as the claim says.
The theorem evaluates the handler at the failing input. -/
theorem c3_delete_missing_doc_id_attribute_error :
    deletePost exState true none =
      { state := exState, effects := [], error := some .attributeError } := by
  decide

/-- Claim C4 (confirmed): an authorized delete of an existing
document id removes the storage directory first (`rmtreeDir` precedes
`dbDeleteRow` in the effect list) and the catalog row second, and
afterwards a fetch by that id fails not-found, both in the catalog
(`getById` is `none`, the NoResultFound of `one()`) and in the store
(every `storeLookup` under the id is `none`, the 404 path of the
download handler). -/
theorem c4_delete_removes_dir_then_row (st : AppState) (i : Nat) (doc : DocModel)
    (hdoc : getById st.catalog i = some doc)
    (hdir : storeHasDir st.store i = true)
    (huniq : (st.catalog.map fun d => d.id).Nodup) :
    deletePost st true (some i) =
      { state := { catalog := removeFirst st.catalog i, store := removeDir st.store i }
        effects := [.rmtreeDir i, .dbDeleteRow i,
          .setCookie "notification".toList
            ("Deleted document: ".toList ++ doc.doc_title ++ "\"".toList),
          .writeJsonSuccess]
        error := none } ∧
    getById (removeFirst st.catalog i) i = none ∧
    storeHasDir (removeDir st.store i) i = false ∧
    (∀ n, storeLookup (removeDir st.store i) i n = none) := by
  refine ⟨?_, getById_removeFirst st.catalog i huniq, storeHasDir_removeDir st.store i,
    fun n => storeLookup_removeDir st.store i n⟩
  simp [deletePost, hdir, hdoc]

/-- Witness for C4 at the concrete one-document state. -/
theorem c4_witness :
    getById exState.catalog 1 = some exDoc ∧
    storeHasDir exState.store 1 = true ∧
    (exState.catalog.map fun d => d.id).Nodup ∧
    (deletePost exState true (some 1) =
      { state := { catalog := removeFirst exState.catalog 1, store := removeDir exState.store 1 }
        effects := [.rmtreeDir 1, .dbDeleteRow 1,
          .setCookie "notification".toList
            ("Deleted document: ".toList ++ exDoc.doc_title ++ "\"".toList),
          .writeJsonSuccess]
        error := none } ∧
    getById (removeFirst exState.catalog 1) 1 = none ∧
    storeHasDir (removeDir exState.store 1) 1 = false ∧
    (∀ n, storeLookup (removeDir exState.store 1) 1 n = none)) :=
  ⟨by decide, by decide, by decide,
    c4_delete_removes_dir_then_row exState 1 exDoc (by decide) (by decide) (by decide)⟩

/-- Counterexample to claim C5 as stated: the search handler
interpolates the raw query into a SQL `LIKE` pattern, so a query
consisting of the wildcard `%` returns the sample record although `%`
does not appear as a (case-insensitive) substring of its title,
description, source org or uploader name. -/
theorem c5_counterexample :
    (searchGet exState (some ['%']) 0).matching_docs = [exDoc] ∧
    specMatches ['%'] exDoc = false := by
  decide

/-- Claim C5 (corrected: the substring reading requires the query
term to be free of the `LIKE` wildcards `%` and `_`): with no query
the handler reports the full catalog count and pages through all
records ordered by upload date descending; with a nonempty
wildcard-free query every returned record is a catalog record in
which the term appears as a case-insensitive substring of title,
description, source org or uploader name, the page stays ordered by
upload date descending, and the reported count is the total number of
filtered rows for every pagination offset. -/
theorem c5_search_semantics (st : AppState) (q : Str) (offset : Nat)
    (hq : wildcardFree q = true) :
    ((searchGet st none offset).count = st.catalog.length ∧
      (searchGet st none offset).matching_docs =
        ((List.insertionSort docDateGe st.catalog).drop offset).take 20 ∧
      List.Sorted docDateGe (searchGet st none offset).matching_docs) ∧
    (q ≠ [] →
      (∀ d ∈ (searchGet st (some q) offset).matching_docs,
        d ∈ st.catalog ∧ specMatches q d = true) ∧
      List.Sorted docDateGe (searchGet st (some q) offset).matching_docs ∧
      (∀ off2, (searchGet st (some q) off2).count =
        (st.catalog.filter fun d => specMatches q d).length)) := by
  constructor
  · refine ⟨rfl, rfl, ?_⟩
    exact List.Pairwise.sublist
      ((List.take_sublist _ _).trans (List.drop_sublist _ _))
      (List.sorted_insertionSort docDateGe st.catalog)
  · intro hne
    have hunfold : ∀ off2, searchGet st (some q) off2 =
        { count := (st.catalog.filter (rowMatches q)).length
          matching_docs :=
            ((List.insertionSort docDateGe (st.catalog.filter (rowMatches q))).drop off2).take
              20 } := by
      intro off2
      simp [searchGet, hne]
    refine ⟨?_, ?_, ?_⟩
    · intro d hd
      rw [hunfold offset] at hd
      have hd2 : d ∈ List.insertionSort docDateGe (st.catalog.filter (rowMatches q)) :=
        List.mem_of_mem_drop (List.mem_of_mem_take hd)
      have hd3 : d ∈ st.catalog.filter (rowMatches q) :=
        (List.perm_insertionSort _ _).mem_iff.mp hd2
      have hd4 := List.mem_filter.mp hd3
      exact ⟨hd4.1, by rw [← rowMatches_eq_specMatches hq]; exact hd4.2⟩
    · rw [hunfold offset]
      exact List.Pairwise.sublist
        ((List.take_sublist _ _).trans (List.drop_sublist _ _))
        (List.sorted_insertionSort docDateGe (st.catalog.filter (rowMatches q)))
    · intro off2
      rw [hunfold off2]
      exact congrArg List.length
        (List.filter_congr fun d _ => rowMatches_eq_specMatches hq d)

/-- Witness for C5 at the concrete one-document state with the
wildcard-free query "ort". -/
theorem c5_witness :
    wildcardFree "ort".toList = true ∧
    (((searchGet exState none 0).count = exState.catalog.length ∧
      (searchGet exState none 0).matching_docs =
        ((List.insertionSort docDateGe exState.catalog).drop 0).take 20 ∧
      List.Sorted docDateGe (searchGet exState none 0).matching_docs) ∧
    ("ort".toList ≠ [] →
      (∀ d ∈ (searchGet exState (some "ort".toList) 0).matching_docs,
        d ∈ exState.catalog ∧ specMatches "ort".toList d = true) ∧
      List.Sorted docDateGe (searchGet exState (some "ort".toList) 0).matching_docs ∧
      (∀ off2, (searchGet exState (some "ort".toList) off2).count =
        (exState.catalog.filter fun d => specMatches "ort".toList d).length))) :=
  ⟨by decide, c5_search_semantics exState "ort".toList 0 (by decide)⟩

/-- Counterexample to claim C6 as stated: a `POST /add` carrying the
three spec-listed required fields (doc_title, doc_description,
source_org) and a file upload, but no `uploader_name` parameter,
creates no id and no catalog row: `get_argument('uploader_name')` has
no default, so a MissingArgumentError (HTTP 400) escapes first. -/
theorem c6_counterexample :
    addPost (AppState.mk [] []) exAddFormNoName 20240102 =
      { state := AppState.mk [] [], effects := [], error := some .missingArgument } := by
  decide

/-- Claim C6 (corrected: besides the three listed required fields and
the file, the handler also requires the `uploader_name` and
`uploader_email` parameters to be present - they may be blank): such a
request assigns the fresh id `newId` (distinct from every existing
id), appends a catalog row with `date_uploaded` equal to the current
date and the original filename, and makes the file retrievable at
that id under its original filename (the download succeeds and
streams back exactly the uploaded bytes); a request missing the file
upload fails with a 400 client error and a plain-text body and
changes nothing. -/
theorem c6_add_creates_and_serves (st : AppState) (form : AddForm) (today : Nat)
    (t dsc org un ue fn body : Str) (dr drc : Option Nat)
    (h1 : form.doc_title = some t) (h2 : form.doc_description = some dsc)
    (h3 : form.source_org = some org) (h4 : form.uploader_name = some un)
    (h5 : form.uploader_email = some ue) (h6 : form.file = some (fn, body))
    (h7 : parseOptDate form.date_requested = .ok dr)
    (h8 : parseOptDate form.date_received = .ok drc)
    (h9 : storeHasDir st.store (newId st.catalog) = false) :
    (addPost st form today).error = none ∧
    (∀ d ∈ st.catalog, d.id ≠ newId st.catalog) ∧
    (addPost st form today).state.catalog = st.catalog ++
      [{ id := newId st.catalog
         doc_title := t
         doc_description := dsc
         source_org := org
         tracking_number := form.tracking_number
         date_requested := dr
         date_received := drc
         uploader_name := if un = [] then "anonymous".toList else un
         uploader_email := if ue = [] then "anonymous@example.com".toList else ue
         filename := fn
         date_uploaded := today }] ∧
    (downloadGet (addPost st form today).state (newId st.catalog) fn).error = none ∧
    writesBody (downloadGet (addPost st form today).state (newId st.catalog) fn).effects =
      body ∧
    (∀ form2 : AddForm, form2.doc_title.isSome → form2.doc_description.isSome →
      form2.source_org.isSome → form2.file = none →
      addPost st form2 today =
        { state := st
          effects := [.setStatus 400, .writeBody "Request missing file upload".toList]
          error := none }) := by
  have happ : addPost st form today =
      { state :=
          { catalog := st.catalog ++
              [{ id := newId st.catalog
                 doc_title := t
                 doc_description := dsc
                 source_org := org
                 tracking_number := form.tracking_number
                 date_requested := dr
                 date_received := drc
                 uploader_name := if un = [] then "anonymous".toList else un
                 uploader_email := if ue = [] then "anonymous@example.com".toList else ue
                 filename := fn
                 date_uploaded := today }]
            store := st.store ++
              [{ doc_id := newId st.catalog, name := fn, content := body }] }
        effects := [.setCookie "notification".toList "Document added; thanks!".toList,
          .redirectTo "/".toList]
        error := none } := by
    simp [addPost, h1, h2, h3, h6, h7, h8, h4, h5, h9]
  have hfresh : ∀ g ∈ st.store, g.doc_id ≠ newId st.catalog := storeHasDir_eq_false h9
  have hlook : storeLookup (addPost st form today).state.store (newId st.catalog) fn =
      some body := by
    rw [happ]
    exact storeLookup_append_fresh st.store
      { doc_id := newId st.catalog, name := fn, content := body } hfresh
  refine ⟨by rw [happ], newId_fresh st.catalog, by rw [happ],
    (downloadGet_found _ _ _ _ hlook).1, (downloadGet_found _ _ _ _ hlook).2, ?_⟩
  intro form2 g1 g2 g3 g4
  obtain ⟨t2, ht2⟩ := Option.isSome_iff_exists.mp g1
  obtain ⟨d2, hd2⟩ := Option.isSome_iff_exists.mp g2
  obtain ⟨o2, ho2⟩ := Option.isSome_iff_exists.mp g3
  simp [addPost, ht2, hd2, ho2, g4]

/-- Witness for C6: a complete add (blank uploader fields, one date
given) against the concrete one-document state. -/
theorem c6_witness :
    exAddForm.doc_title = some "Report B".toList ∧
    exAddForm.doc_description = some "Fresh numbers".toList ∧
    exAddForm.source_org = some "Agency Y".toList ∧
    exAddForm.uploader_name = some "".toList ∧
    exAddForm.uploader_email = some "".toList ∧
    exAddForm.file = some ("b.pdf".toList, "PDF2".toList) ∧
    parseOptDate exAddForm.date_requested = .ok (some 20240102) ∧
    parseOptDate exAddForm.date_received = .ok none ∧
    storeHasDir exState.store (newId exState.catalog) = false ∧
    ((addPost exState exAddForm 20240515).error = none ∧
    (∀ d ∈ exState.catalog, d.id ≠ newId exState.catalog) ∧
    (addPost exState exAddForm 20240515).state.catalog = exState.catalog ++
      [{ id := newId exState.catalog
         doc_title := "Report B".toList
         doc_description := "Fresh numbers".toList
         source_org := "Agency Y".toList
         tracking_number := exAddForm.tracking_number
         date_requested := some 20240102
         date_received := none
         uploader_name := if "".toList = [] then "anonymous".toList else "".toList
         uploader_email := if "".toList = [] then "anonymous@example.com".toList else "".toList
         filename := "b.pdf".toList
         date_uploaded := 20240515 }] ∧
    (downloadGet (addPost exState exAddForm 20240515).state (newId exState.catalog)
      "b.pdf".toList).error = none ∧
    writesBody (downloadGet (addPost exState exAddForm 20240515).state (newId exState.catalog)
      "b.pdf".toList).effects = "PDF2".toList ∧
    (∀ form2 : AddForm, form2.doc_title.isSome → form2.doc_description.isSome →
      form2.source_org.isSome → form2.file = none →
      addPost exState form2 20240515 =
        { state := exState
          effects := [.setStatus 400, .writeBody "Request missing file upload".toList]
          error := none })) :=
  ⟨by decide, by decide, by decide, by decide, by decide, by decide, by decide, by decide,
    by decide,
    c6_add_creates_and_serves exState exAddForm 20240515 "Report B".toList
      "Fresh numbers".toList "Agency Y".toList "".toList "".toList "b.pdf".toList
      "PDF2".toList (some 20240102) none (by decide) (by decide) (by decide) (by decide)
      (by decide) (by decide) (by decide) (by decide) (by decide)⟩

/-- Counterexample to claim C7 as stated: a `POST /add` that omits
the `uploader_email` parameter creates no record at all - the
missing-argument error escapes - rather than creating a record whose
email defaults to the anonymous placeholder. -/
theorem c7_counterexample :
    addPost (AppState.mk [] []) exAddFormNoEmail 20240102 =
      { state := AppState.mk [] [], effects := [], error := some .missingArgument } := by
  decide

/-- Claim C7 (corrected: the anonymous defaults apply per field to
uploader values submitted as empty strings; parameters omitted
entirely make the request fail with a missing-argument client error
and no record): when `uploader_name` or `uploader_email` is absent
the handler fails with MissingArgumentError (HTTP 400) and the state
is unchanged; when both parameters are present the created record
carries, for each of the two fields independently, the anonymous
placeholder if that field was submitted blank and the submitted value
otherwise. -/
theorem c7_uploader_defaults_require_presence (st : AppState) (form : AddForm) (today : Nat)
    (t dsc org fn body : Str) (dr drc : Option Nat)
    (h1 : form.doc_title = some t) (h2 : form.doc_description = some dsc)
    (h3 : form.source_org = some org) (h6 : form.file = some (fn, body))
    (h7 : parseOptDate form.date_requested = .ok dr)
    (h8 : parseOptDate form.date_received = .ok drc) :
    (form.uploader_name = none →
      addPost st form today =
        { state := st, effects := [], error := some .missingArgument }) ∧
    (form.uploader_email = none →
      addPost st form today =
        { state := st, effects := [], error := some .missingArgument }) ∧
    (∀ un ue, form.uploader_name = some un → form.uploader_email = some ue →
      ∃ nd, (addPost st form today).state.catalog = st.catalog ++ [nd] ∧
        nd.uploader_name = (if un = [] then "anonymous".toList else un) ∧
        nd.uploader_email = (if ue = [] then "anonymous@example.com".toList else ue)) := by
  refine ⟨?_, ?_, ?_⟩
  · intro hn
    simp [addPost, h1, h2, h3, h6, h7, h8, hn]
  · intro he
    cases hn : form.uploader_name with
    | none => simp [addPost, h1, h2, h3, h6, h7, h8, hn, he]
    | some un => simp [addPost, h1, h2, h3, h6, h7, h8, hn, he]
  · intro un ue hn he
    by_cases hsd : storeHasDir st.store (newId st.catalog)
    · refine ⟨⟨newId st.catalog, t, dsc, org, form.tracking_number, dr, drc,
        if un = [] then "anonymous".toList else un,
        if ue = [] then "anonymous@example.com".toList else ue, fn, today⟩, ?_, rfl, rfl⟩
      simp [addPost, h1, h2, h3, h6, h7, h8, hn, he, hsd]
    · refine ⟨⟨newId st.catalog, t, dsc, org, form.tracking_number, dr, drc,
        if un = [] then "anonymous".toList else un,
        if ue = [] then "anonymous@example.com".toList else ue, fn, today⟩, ?_, rfl, rfl⟩
      simp [addPost, h1, h2, h3, h6, h7, h8, hn, he, hsd]

/-- Witness for C7: a mixed add form - uploader name given, uploader
email submitted blank - against the concrete one-document state. -/
theorem c7_witness :
    exAddFormMixed.doc_title = some "Report E".toList ∧
    exAddFormMixed.file = some ("e.pdf".toList, "PDF5".toList) ∧
    ((exAddFormMixed.uploader_name = none →
      addPost exState exAddFormMixed 20240515 =
        { state := exState, effects := [], error := some .missingArgument }) ∧
    (exAddFormMixed.uploader_email = none →
      addPost exState exAddFormMixed 20240515 =
        { state := exState, effects := [], error := some .missingArgument }) ∧
    (∀ un ue, exAddFormMixed.uploader_name = some un →
      exAddFormMixed.uploader_email = some ue →
      ∃ nd, (addPost exState exAddFormMixed 20240515).state.catalog =
          exState.catalog ++ [nd] ∧
        nd.uploader_name = (if un = [] then "anonymous".toList else un) ∧
        nd.uploader_email = (if ue = [] then "anonymous@example.com".toList else ue))) :=
  ⟨by decide, by decide,
    c7_uploader_defaults_require_presence exState exAddFormMixed 20240515 "Report E".toList
      "Totals".toList "Agency V".toList "e.pdf".toList "PDF5".toList
      none none (by decide) (by decide) (by decide) (by decide) (by decide)
      (by decide)⟩

/-- Claim C8 (confirmed): a successful `POST /edit/{id}` of an
existing record replaces only that row, the replacement is the old
row with exactly the eight metadata fields overwritten by the coerced
form values (`applyEdit`), so the record keeps its `id`, `filename`
and `date_uploaded`, and the file store - hence the stored file
bytes - is untouched. -/
theorem c8_edit_frame (st : AppState) (auth : Bool) (i : Nat) (form : EditForm)
    (doc : DocModel)
    (hdoc : getById st.catalog i = some doc)
    (hok : (editPost st auth i form).error = none) :
    ∃ v, readEditForm form = .ok v ∧
      editPost st auth i form =
        { state := { catalog := updateFirst st.catalog i (applyEdit doc v), store := st.store }
          effects := [.setCookie "notification".toList "Document updated; thanks!".toList,
            .redirectTo "/".toList]
          error := none } ∧
      (applyEdit doc v).id = doc.id ∧
      (applyEdit doc v).filename = doc.filename ∧
      (applyEdit doc v).date_uploaded = doc.date_uploaded := by
  cases hv : readEditForm form with
  | error e =>
      rw [show editPost st auth i form =
          { state := st, effects := [], error := some e } by
        simp [editPost, hdoc, hv]] at hok
      cases hok
  | ok v =>
      refine ⟨v, rfl, ?_, rfl, rfl, rfl⟩
      simp [editPost, hdoc, hv]

/-- Witness for C8: an authorized complete edit of the concrete
one-document state. -/
theorem c8_witness :
    getById exState.catalog 1 = some exDoc ∧
    (editPost exState true 1 exEditForm).error = none ∧
    (∃ v, readEditForm exEditForm = .ok v ∧
      editPost exState true 1 exEditForm =
        { state :=
            { catalog := updateFirst exState.catalog 1 (applyEdit exDoc v)
              store := exState.store }
          effects := [.setCookie "notification".toList "Document updated; thanks!".toList,
            .redirectTo "/".toList]
          error := none } ∧
      (applyEdit exDoc v).id = exDoc.id ∧
      (applyEdit exDoc v).filename = exDoc.filename ∧
      (applyEdit exDoc v).date_uploaded = exDoc.date_uploaded) :=
  ⟨by decide, by decide,
    c8_edit_frame exState true 1 exEditForm exDoc (by decide) (by decide)⟩

/-- Counterexample to claim C9 as stated: with the shared secret
"a:b" and decoded credentials "u:a:b", the submitted HTTP Basic
password (everything after the first colon) equals the secret, yet no
marker cookie is set and no challenge is sent: `split(':', 2)` yields
three parts and the two-variable unpacking raises ValueError. -/
theorem c9_counterexample :
    basicPassword "u:a:b".toList = some "a:b".toList ∧
    authGet "a:b".toList { log_out := false, creds := some "u:a:b".toList } =
      { effects := [], error := some .valueError } := by
  decide

/-- Claim C9 (corrected: restricted to requests whose decoded
credentials split on the colon into exactly a username and a
password, i.e. the password contains no colon): a matching password
sets the signed `authorized` marker cookie; a mismatching password or
an absent Authorization header yields a Basic-auth challenge with
status 401 and sets no cookie; a request with `log_out` set clears
the marker cookie.  Credentials that split into any other number of
parts raise ValueError instead (see C10). -/
theorem c9_auth_gate (password s u p : Str)
    (hsplit : pySplitLimit 2 ':' s = [u, p]) :
    authGet password { log_out := true, creds := some s } =
      { effects := [.clearCookie "authorized".toList,
          .setCookie "notification".toList "You have signed out".toList,
          .redirectTo "/".toList]
        error := none } ∧
    authGet password { log_out := false, creds := none } =
      { effects := [.setHeader "WWW-Authenticate".toList "Basic realm=/auth/".toList,
          .setStatus 401]
        error := none } ∧
    (p = password →
      authGet password { log_out := false, creds := some s } =
        { effects := [.setSecureCookie "authorized".toList "true".toList,
            .setCookie "notification".toList "You have signed in succesfully!".toList,
            .redirectTo "/".toList]
          error := none }) ∧
    (p ≠ password →
      authGet password { log_out := false, creds := some s } =
        { effects := [.setHeader "WWW-Authenticate".toList "Basic realm=/auth/".toList,
            .setStatus 401]
          error := none }) := by
  refine ⟨by simp [authGet], by simp [authGet], ?_, ?_⟩
  · intro hp
    simp [authGet, hsplit, hp]
  · intro hp
    simp [authGet, hsplit, hp]

/-- Witness for C9 at the concrete credentials admin:hunter2. -/
theorem c9_witness :
    pySplitLimit 2 ':' "admin:hunter2".toList = ["admin".toList, "hunter2".toList] ∧
    (authGet "hunter2".toList { log_out := true, creds := some "admin:hunter2".toList } =
      { effects := [.clearCookie "authorized".toList,
          .setCookie "notification".toList "You have signed out".toList,
          .redirectTo "/".toList]
        error := none } ∧
    authGet "hunter2".toList { log_out := false, creds := none } =
      { effects := [.setHeader "WWW-Authenticate".toList "Basic realm=/auth/".toList,
          .setStatus 401]
        error := none } ∧
    ("hunter2".toList = "hunter2".toList →
      authGet "hunter2".toList { log_out := false, creds := some "admin:hunter2".toList } =
        { effects := [.setSecureCookie "authorized".toList "true".toList,
            .setCookie "notification".toList "You have signed in succesfully!".toList,
            .redirectTo "/".toList]
          error := none }) ∧
    ("hunter2".toList ≠ "hunter2".toList →
      authGet "hunter2".toList { log_out := false, creds := some "admin:hunter2".toList } =
        { effects := [.setHeader "WWW-Authenticate".toList "Basic realm=/auth/".toList,
            .setStatus 401]
          error := none })) :=
  ⟨by decide,
    c9_auth_gate "hunter2".toList "admin:hunter2".toList "admin".toList "hunter2".toList
      (by decide)⟩

/-- Claim C10 (confirmed): decoded credentials "user:pa:ss" - a
password containing a colon - split under `split(':', 2)` into three
parts, the HTTP Basic password portion "pa:ss" equals the shared
secret, and yet the handler raises ValueError (an unhandled server
error) instead of signing the user in or challenging with 401. -/
theorem c10_colon_password_crashes :
    pySplitLimit 2 ':' "user:pa:ss".toList =
      ["user".toList, "pa".toList, "ss".toList] ∧
    basicPassword "user:pa:ss".toList = some "pa:ss".toList ∧
    authGet "pa:ss".toList { log_out := false, creds := some "user:pa:ss".toList } =
      { effects := [], error := some .valueError } := by
  decide

end A2DocStore
